import Mathlib

/-!
Verification development for the BaguioPetBoarding backend.

The definitions below are a shallow embedding of the capacity-relevant parts
of the source: the availability model (src/models/availability.js), the
flattened booking model (booking_flat, src/unnamed/part_007 and its twin
src/unnamed/part_008), the booking controller
(src/controllers/bookingController.js), the availability root route
(src/unnamed/part_003), the bookings status route (the bookings router bundled
in src/routes/users.js), the legacy slot calculator
(calculateAvailableSlotsForDate in src/unnamed/part_000), and the room-type
normalizer (normalizeRoomType in src/routes/users.js).

Dates are modelled as natural numbers (day codes such as 20250801); only their
ordering matters.  SQL tables are modelled as lists of rows; SQL WHERE clauses
become list filters, with SQL NULL comparison semantics made explicit (a NULL
compared with <= or >= is not a match).  Slot counts use Int so that
unclamped subtractions can go negative exactly where the source can.
-/

namespace BaguioPetBoarding

/-- The booking_status enum of the bookings table: the five persisted values. -/
inductive BookingStatus where
  | pending
  | confirmed
  | completed
  | cancelled
  | noShow
deriving DecidableEq

/-- Parse a status string into the enum, as the validStatuses check of
the model layer does implicitly before the UPDATE. -/
def statusOfString : String → Option BookingStatus
  | "pending" => some BookingStatus.pending
  | "confirmed" => some BookingStatus.confirmed
  | "completed" => some BookingStatus.completed
  | "cancelled" => some BookingStatus.cancelled
  | "no-show" => some BookingStatus.noShow
  | _ => none

/-- Capacity-relevant projection of a row of the bookings table (flattened
schema).  Owner and pet columns are carried through by the source unchanged
and play no role in any claim, so they are not modelled. -/
structure Booking where
  booking_id : Nat
  service_id : Nat
  room_type : Option String
  start_date : Nat
  end_date : Option Nat
  status : BookingStatus
deriving DecidableEq

/-- A row of the services table (seeded by the schema scripts). allows_cat
models the optional column probed with hasOwnProperty in the controller;
cat_price_defined models whether price_cat_small or price_cat_medium is
non-null. -/
structure Service where
  service_id : Nat
  service_name : String
  service_type : String
  max_slots : Int
  allows_cat : Option Bool
  cat_price_defined : Bool
deriving DecidableEq

/-- A row of the calendar_availability table (PostgreSQL schema): the table
is keyed by date alone and has no service or room scope columns, so every
block row applies to every service and room type. -/
structure CalendarRow where
  date : Nat
  is_available : Bool
  reason : Option String
deriving DecidableEq

/-- A row of the legacy bookings table as queried by
calculateAvailableSlotsForDate in the legacy server file: service_type and
room_type are stored directly on the row and status is a free string. -/
structure LegacyBooking where
  start_date : Nat
  end_date : Option Nat
  service_type : String
  room_type : String
  status : String
deriving DecidableEq

/-- A row of the legacy unavailable_dates table: scoped blocks whose
service_type and room_type default to the wildcard string all. -/
structure UnavailableDate where
  date : Nat
  service_type : String
  room_type : String
deriving DecidableEq

/-- One total/available pair of the availability snapshot. -/
structure SlotInfo where
  total : Int
  available : Int
deriving DecidableEq

/-- Overnight part of the availability snapshot. -/
structure OvernightAvail where
  deluxe : SlotInfo
  premium : SlotInfo
  executive : SlotInfo
deriving DecidableEq

/-- Grooming part of the availability snapshot. -/
structure GroomingAvail where
  basic : SlotInfo
  special : SlotInfo
  premium : SlotInfo
deriving DecidableEq

/-- The availability object built by getRoomAvailability. -/
structure RoomAvail where
  overnight : OvernightAvail
  daycare : SlotInfo
  grooming : GroomingAvail
deriving DecidableEq

/-- The data object returned by checkServiceAvailability. -/
structure ServiceCheck where
  date : Nat
  serviceType : String
  roomType : Option String
  isAvailable : Bool
  availableSlots : Int
  totalSlots : Int
  isBlocked : Bool
deriving DecidableEq

/-- One entry of the GET /availability response (part_003 root route). -/
structure ApiServiceAvail where
  service_id : Nat
  service_name : String
  total_slots : Int
  available_slots : Int
deriving DecidableEq

/-- The response shape of the model-layer updateBookingStatus. -/
structure StatusUpdateResponse where
  success : Bool
  message : String
  statusOut : Option String
deriving DecidableEq

/-- The request fields of POST /bookings that the controller validations and
the flattened insert read.  A JS-absent or empty field is modelled as none
(for strings, the empty string is also falsy and is modelled explicitly by
jsTruthyStr). -/
structure BookingRequest where
  ownerName : Option String
  ownerEmail : Option String
  ownerPhone : Option String
  service_id : Option Nat
  service_type : Option String
  booking_date : Option Nat
  end_date : Option Nat
  pet_type : Option String
  weight_category : Option String
  room_type : Option String

/-- JS truthiness of an optional string: absent and empty are falsy. -/
def jsTruthyStr : Option String → Bool
  | none => false
  | some s => !(s == "")

/-- One entry of SERVICE_TYPE_MAP in src/models/availability.js. -/
structure ServiceMapEntry where
  service_id : Nat
  serviceType : String
  roomType : Option String

/-- SERVICE_TYPE_MAP: service id to service type and room type. -/
def SERVICE_TYPE_MAP : List ServiceMapEntry :=
  [⟨1, "overnight", some "deluxe"⟩,
   ⟨6, "overnight", some "premium"⟩,
   ⟨7, "overnight", some "executive"⟩,
   ⟨2, "daycare", none⟩,
   ⟨3, "grooming", some "basic"⟩,
   ⟨4, "grooming", some "special"⟩,
   ⟨5, "grooming", some "premium"⟩]

/-- Lowercase a string character by character (toLowerCase on ASCII input). -/
def lowerStr (s : String) : String :=
  String.mk (s.data.map Char.toLower)

/-- The Object.entries filter of countBookingsByServiceAndRoom: ids of
SERVICE_TYPE_MAP entries with the given type whose roomType equals the
lowercased requested room. -/
def serviceIdsFor (t : String) (room : String) : List Nat :=
  (SERVICE_TYPE_MAP.filter fun e => e.serviceType == t && e.roomType == some room).map
    fun e => e.service_id

/-- status NOT IN (completed, cancelled, no-show), the active-booking filter
of the availability model and the count queries. -/
def statusNotDone (s : BookingStatus) : Bool :=
  !(s == BookingStatus.completed) && !(s == BookingStatus.cancelled) &&
    !(s == BookingStatus.noShow)

/-- status IN (pending, confirmed), the filter of the GET /availability root
route in part_003. -/
def statusPendingOrConfirmed (s : BookingStatus) : Bool :=
  s == BookingStatus.pending || s == BookingStatus.confirmed

/-- The WHERE clause of the single query in getRoomAvailability:
start_date <= d AND end_date >= d AND status NOT IN (...).  A NULL end_date
fails the end_date >= d comparison, so such a row is never selected. -/
def bookingCountedOn (d : Nat) (b : Booking) : Bool :=
  decide (b.start_date ≤ d) &&
    (match b.end_date with
     | some e => decide (d ≤ e)
     | none => false) &&
    statusNotDone b.status

/-- Count of active bookings of one service id on a date, as grouped by the
getRoomAvailability query. -/
def countActiveOnDate (bookings : List Booking) (d : Nat) (sid : Nat) : Int :=
  ((bookings.filter fun b => b.service_id == sid && bookingCountedOn d b).length : Int)

/-- Build one total/available pair: available = max(0, total - count), the
Math.max(0, ...) update applied per booked group (a group with count zero is
absent and leaves available at total, which coincides with max(0, total)). -/
def mkSlot (total : Int) (cnt : Int) : SlotInfo :=
  { total := total, available := max 0 (total - cnt) }

/-- getRoomAvailability of src/models/availability.js, with the services
table at its seeded contents (ids 1,6,7 overnight; 2 daycare; 3,4,5 grooming,
matching SERVICE_TYPE_MAP) and the hardcoded TOTAL_CAPACITY numbers. -/
def getRoomAvailability (bookings : List Booking) (d : Nat) : RoomAvail :=
  { overnight :=
      { deluxe := mkSlot 8 (countActiveOnDate bookings d 1)
        premium := mkSlot 5 (countActiveOnDate bookings d 6)
        executive := mkSlot 2 (countActiveOnDate bookings d 7) }
    daycare := mkSlot 15 (countActiveOnDate bookings d 2)
    grooming :=
      { basic := mkSlot 8 (countActiveOnDate bookings d 3)
        special := mkSlot 6 (countActiveOnDate bookings d 4)
        premium := mkSlot 4 (countActiveOnDate bookings d 5) } }

/-- The availability.overnight[roomType] object lookup. -/
def overnightSlotFor (a : OvernightAvail) : String → Option SlotInfo
  | "deluxe" => some a.deluxe
  | "premium" => some a.premium
  | "executive" => some a.executive
  | _ => none

/-- The availability.grooming[roomType] object lookup. -/
def groomingSlotFor (a : GroomingAvail) : String → Option SlotInfo
  | "basic" => some a.basic
  | "special" => some a.special
  | "premium" => some a.premium
  | _ => none

/-- checkServiceAvailability of src/models/availability.js: pick the slot
pair for the requested service/room (unknown service types and unknown or
missing room types leave all counts at zero), then zero the result if any
calendar_availability row for the date has is_available = FALSE.  The source
query has no scope condition because the table has no scope columns. -/
def checkServiceAvailability (bookings : List Booking) (cal : List CalendarRow)
    (d : Nat) (serviceType : String) (roomType : Option String) : ServiceCheck :=
  let avail := getRoomAvailability bookings d
  let picked : Int × Int :=
    if serviceType == "overnight" && jsTruthyStr roomType then
      match overnightSlotFor avail.overnight (roomType.getD "") with
      | some si => (si.available, si.total)
      | none => (0, 0)
    else if serviceType == "daycare" then
      (avail.daycare.available, avail.daycare.total)
    else if serviceType == "grooming" && jsTruthyStr roomType then
      match groomingSlotFor avail.grooming (roomType.getD "") with
      | some si => (si.available, si.total)
      | none => (0, 0)
    else (0, 0)
  let blocked := cal.any fun r => r.date == d && !r.is_available
  { date := d
    serviceType := serviceType
    roomType := roomType
    isAvailable := if blocked then false else decide (0 < picked.1)
    availableSlots := if blocked then 0 else picked.1
    totalSlots := picked.2
    isBlocked := blocked }

/-- The booked count of the GET /availability root route subquery:
bookings of the service with start_date = d and status IN
(pending, confirmed).  Note it looks at start_date only. -/
def countPendingConfirmedStart (bookings : List Booking) (d : Nat) (sid : Nat) : Int :=
  ((bookings.filter fun b =>
      b.service_id == sid && b.start_date == d && statusPendingOrConfirmed b.status).length : Int)

/-- The GET /availability root route of part_003: one entry per services row
with available_slots = max_slots - booked, with no clamping at zero.
The ORDER BY service_name of the source only reorders entries. -/
def availabilityRootRoute (services : List Service) (bookings : List Booking)
    (d : Nat) : List ApiServiceAvail :=
  services.map fun s =>
    { service_id := s.service_id
      service_name := s.service_name
      total_slots := s.max_slots
      available_slots := s.max_slots - countPendingConfirmedStart bookings d s.service_id }

/-- The JOIN services ON b.service_id = s.service_id projection: the service
type of the service row of the booking, none when the booking matches no row (the
INNER JOIN then drops the booking). -/
def joinServiceType (services : List Service) (b : Booking) : Option String :=
  (services.find? fun s => s.service_id == b.service_id).map fun s => s.service_type

/-- countBookingsByServiceAndRoom of the flattened booking model (part_007;
part_008 is the same logic).  dbOk models whether the pool.query call
succeeds; the catch handler turns any query failure into a count of 0.
For overnight and grooming with a room type, the room is mapped to service
ids through SERVICE_TYPE_MAP after lowercasing, and an empty id list returns
0 before any query runs.  All branches count rows with start_date = d only
and status NOT IN (completed, cancelled, no-show). -/
def countBookingsByServiceAndRoom (dbOk : Bool) (services : List Service)
    (bookings : List Booking) (d : Nat) (serviceType : String)
    (roomType : Option String) : Nat :=
  if serviceType == "overnight" && jsTruthyStr roomType then
    let sids := serviceIdsFor "overnight" (lowerStr (roomType.getD ""))
    if sids.isEmpty then 0
    else if !dbOk then 0
    else (bookings.filter fun b =>
      joinServiceType services b == some serviceType && b.start_date == d &&
        sids.contains b.service_id && statusNotDone b.status).length
  else if serviceType == "grooming" && jsTruthyStr roomType then
    let sids := serviceIdsFor "grooming" (lowerStr (roomType.getD ""))
    if sids.isEmpty then 0
    else if !dbOk then 0
    else (bookings.filter fun b =>
      joinServiceType services b == some serviceType && b.start_date == d &&
        sids.contains b.service_id && statusNotDone b.status).length
  else
    if !dbOk then 0
    else (bookings.filter fun b =>
      joinServiceType services b == some serviceType && b.start_date == d &&
        statusNotDone b.status).length

/-- Scope cover test of the legacy unavailable_dates query:
date = d AND (service_type = st OR service_type = all) AND
(room_type = rt OR room_type = all). -/
def legacyBlockCovers (d : Nat) (st rt : String) (u : UnavailableDate) : Bool :=
  u.date == d && (u.service_type == st || u.service_type == "all") &&
    (u.room_type == rt || u.room_type == "all")

/-- calculateAvailableSlotsForDate of the legacy server file (part_000):
hardcoded totals, a booked count whose interval test uses
IFNULL(end_date, start_date) and whose status filter excludes only cancelled
and cancel, a scoped blocked-date check that forces 0, and otherwise
max(0, total - booked). -/
def calculateAvailableSlotsForDate (bookings : List LegacyBooking)
    (unav : List UnavailableDate) (d : Nat) (serviceType roomType : String) : Int :=
  let totalSlots : Int :=
    if serviceType == "overnight" then
      (if roomType == "executive room" then 2 else 10)
    else if serviceType == "grooming" then
      (if roomType == "Premium Grooming" || roomType == "Special Grooming Package" then 5
       else 10)
    else 10
  let bookedSlots : Int :=
    ((bookings.filter fun b =>
        decide (b.start_date ≤ d) && decide (d ≤ b.end_date.getD b.start_date) &&
          b.service_type == serviceType &&
          (b.room_type == roomType || (serviceType == "daycare" && b.service_type == "daycare")) &&
          !(b.status == "cancelled") && !(b.status == "cancel")).length : Int)
  let blocked := unav.any (legacyBlockCovers d serviceType roomType)
  if blocked then 0 else max 0 (totalSlots - bookedSlots)

/-- Trim leading and trailing whitespace of a character list. -/
def trimChars (l : List Char) : List Char :=
  ((l.dropWhile Char.isWhitespace).reverse.dropWhile Char.isWhitespace).reverse

/-- Replace every underscore by a space, character by character. -/
def underscoreToSpace (l : List Char) : List Char :=
  l.map fun c => if c == '_' then ' ' else c

/-- The canonical form built by normalizeRoomType:
trim, then toLowerCase, then replace underscores by spaces. -/
def canonRoomChars (s : String) : List Char :=
  underscoreToSpace ((trimChars s.data).map Char.toLower)

/-- Does the character list start with the pattern. -/
def charsStartWith : List Char → List Char → Bool
  | [], _ => true
  | _ :: _, [] => false
  | p :: ps, c :: cs => p == c && charsStartWith ps cs

/-- Substring containment on character lists (String.prototype.includes). -/
def charsContain : List Char → List Char → Bool
  | [], pat => pat.isEmpty
  | c :: rest, pat => charsStartWith pat (c :: rest) || charsContain rest pat

/-- Substring containment on strings. -/
def strContains (s pat : String) : Bool :=
  charsContain s.data pat.data

/-- normalizeRoomType of the bookings router in src/routes/users.js:
falsy input gives null; otherwise the canonical form is matched exactly
against the known names and then by substring fallback, deluxe before
premium before executive. -/
def normalizeRoomType (roomType : String) : Option String :=
  if roomType == "" then none
  else
    let v := String.mk (canonRoomChars roomType)
    if v == "deluxe" || v == "deluxe room" then some "Deluxe Room"
    else if v == "premium" || v == "premium room" then some "Premium Room"
    else if v == "executive" || v == "executive room" then some "Executive Room"
    else if strContains v "deluxe" then some "Deluxe Room"
    else if strContains v "premium" then some "Premium Room"
    else if strContains v "executive" then some "Executive Room"
    else none

/-- The five status strings accepted by the model-layer updateBookingStatus. -/
def validStatuses : List String :=
  ["pending", "confirmed", "completed", "cancelled", "no-show"]

/-- updateBookingStatus of the flattened booking model (part_007, and
identically part_008): reject unknown status strings, run
UPDATE bookings SET status = s WHERE booking_id = id, and report not found
when the update matches no row.  Only the status column is written. -/
def updateBookingStatus (bookings : List Booking) (id : Nat) (status : String) :
    StatusUpdateResponse × List Booking :=
  if !(validStatuses.contains status) then
    ({ success := false, message := "Invalid status value", statusOut := none }, bookings)
  else if (bookings.filter fun b => b.booking_id == id).isEmpty then
    ({ success := false, message := "Booking not found", statusOut := none }, bookings)
  else
    ({ success := true, message := "Booking status updated", statusOut := some status },
      bookings.map fun b =>
        if b.booking_id == id then
          { b with status := (statusOfString status).getD b.status }
        else b)

/-- updateBookingStatus of the booking controller: requires id and status,
maps a Booking not found failure to 404, any other model failure to 400 and
success to 200.  Returns (http status, model response, table after). -/
def updateBookingStatusHttp (bookings : List Booking) (id : Option Nat)
    (status : Option String) : Nat × StatusUpdateResponse × List Booking :=
  match id, status with
  | some i, some s =>
    let r := updateBookingStatus bookings i s
    if r.1.success then (200, r.1, r.2)
    else if r.1.message == "Booking not found" then (404, r.1, r.2)
    else (400, r.1, r.2)
  | _, _ =>
    (400, { success := false, message := "Booking ID and status are required",
            statusOut := none }, bookings)

/-- The six status strings accepted by the bookings-router PATCH /:id/status
handler (complete is an accepted alias of completed). -/
def routeValidStatuses : List String :=
  ["pending", "confirmed", "completed", "complete", "cancelled", "no-show"]

/-- The completed branch of the route handler: status becomes completed and
end_date = CASE WHEN end_date > CURRENT_DATE THEN CURRENT_DATE ELSE end_date
END; a NULL end_date fails the > comparison and stays NULL. -/
def clampCompleted (today : Nat) (b : Booking) : Booking :=
  { b with
    status := BookingStatus.completed
    end_date :=
      match b.end_date with
      | some e => if today < e then some today else some e
      | none => none }

/-- The PATCH /:id/status handler of the bookings router (bundled in
src/routes/users.js): validate against the six accepted strings (400),
report 404 when no row matches, and otherwise run the per-status UPDATE;
only the completed/complete branch touches end_date.  Audit columns
(confirmed_by, cancelled_at, admin_notes, ...) are not modelled. -/
def routeUpdateBookingStatus (today : Nat) (bookings : List Booking) (id : Nat)
    (status : String) : Nat × List Booking :=
  if !(routeValidStatuses.contains status) then (400, bookings)
  else if (bookings.filter fun b => b.booking_id == id).isEmpty then (404, bookings)
  else if status == "completed" || status == "complete" then
    (200, bookings.map fun b => if b.booking_id == id then clampCompleted today b else b)
  else
    (200, bookings.map fun b =>
      if b.booking_id == id then { b with status := (statusOfString status).getD b.status }
      else b)

/-- createBooking of the flattened booking model (part_007): normalise the
payload and INSERT the row with status pending inside a BEGIN/COMMIT that
contains no availability query of any kind.  The generated booking id is the
next free id; reference-number generation (timestamp plus random suffix)
does not affect any capacity-relevant column and is not modelled.  A missing
start date makes the INSERT fail and the catch handler report failure. -/
def createBooking (bookings : List Booking) (req : BookingRequest) :
    Bool × List Booking :=
  match req.booking_date with
  | none => (false, bookings)
  | some sd =>
    let newId := (bookings.foldl (fun m b => max m b.booking_id) 0) + 1
    (true, bookings ++
      [{ booking_id := newId
         service_id := req.service_id.getD 0
         room_type := req.room_type
         start_date := sd
         end_date := req.end_date
         status := BookingStatus.pending }])

/-- The cat-allowance test of the controller: an explicit allows_cat column
wins; otherwise a cat price or an overnight/daycare service type allows
cats. -/
def serviceAllowsCat (s : Service) : Bool :=
  match s.allows_cat with
  | some b => b
  | none =>
    s.cat_price_defined || s.service_type == "overnight" || s.service_type == "daycare"

/-- The service lookup of the controller: by id when given, else the first
row of the service type. -/
def lookupService (services : List Service) (req : BookingRequest) : Option Service :=
  match req.service_id with
  | some i => services.find? fun s => s.service_id == i
  | none =>
    match req.service_type with
    | some t => services.find? fun s => s.service_type == t
    | none => none

/-- createBooking of the booking controller (bookingController.js): the
validation chain in source order, then the model insert.  No validation step
reads the bookings table or any capacity number, so a full date is not
rejected.  Returns (http status, table after). -/
def createBookingHttp (services : List Service) (bookings : List Booking)
    (req : BookingRequest) : Nat × List Booking :=
  if !(jsTruthyStr req.ownerName && jsTruthyStr req.ownerEmail && jsTruthyStr req.ownerPhone) then
    (400, bookings)
  else if !((req.service_id.isSome || jsTruthyStr req.service_type) &&
      req.booking_date.isSome && jsTruthyStr req.pet_type) then
    (400, bookings)
  else if !(req.pet_type == some "Dog" || req.pet_type == some "Cat") then
    (400, bookings)
  else
    match lookupService services req with
    | none => (404, bookings)
    | some service =>
      if req.pet_type == some "Cat" && !(serviceAllowsCat service) then (400, bookings)
      else if (req.pet_type == some "Dog" ||
          (req.pet_type == some "Cat" && !(service.service_type == "grooming"))) &&
          !((["Small", "Medium", "Large", "X-Large", "Cat"].map
              (fun w => some w)).contains req.weight_category) then
        (400, bookings)
      else
        let r := createBooking bookings req
        if r.1 then (201, r.2) else (400, r.2)

/-- The seeded services table, ids aligned with SERVICE_TYPE_MAP and
max_slots from the schema seed rows. -/
def servicesSeed : List Service :=
  [⟨1, "Deluxe Room", "overnight", 10, none, false⟩,
   ⟨6, "Premium Room", "overnight", 10, none, false⟩,
   ⟨7, "Executive Room", "overnight", 2, none, false⟩,
   ⟨2, "Pet Daycare", "daycare", 10, none, false⟩,
   ⟨3, "Basic Bath & Dry", "grooming", 10, none, false⟩,
   ⟨4, "Special Care Package", "grooming", 5, none, false⟩,
   ⟨5, "Premium Grooming", "grooming", 5, none, false⟩]

/-! ## Small computation lemmas shared by the claim proofs -/

@[simp] theorem statusNotDone_pending : statusNotDone BookingStatus.pending = true := rfl

@[simp] theorem statusNotDone_confirmed : statusNotDone BookingStatus.confirmed = true := rfl

@[simp] theorem statusNotDone_completed : statusNotDone BookingStatus.completed = false := rfl

@[simp] theorem statusNotDone_cancelled : statusNotDone BookingStatus.cancelled = false := rfl

@[simp] theorem statusNotDone_noShow : statusNotDone BookingStatus.noShow = false := rfl

@[simp] theorem statusPC_pending : statusPendingOrConfirmed BookingStatus.pending = true := rfl

@[simp] theorem statusPC_confirmed : statusPendingOrConfirmed BookingStatus.confirmed = true := rfl

@[simp] theorem statusPC_completed : statusPendingOrConfirmed BookingStatus.completed = false := rfl

@[simp] theorem statusPC_cancelled : statusPendingOrConfirmed BookingStatus.cancelled = false := rfl

@[simp] theorem statusPC_noShow : statusPendingOrConfirmed BookingStatus.noShow = false := rfl

/-! ## Fixtures used by the concrete evaluations -/

/-- Two pending Executive Room bookings (service id 7, capacity 2) covering
day 20250801: the full-capacity state of the specification scenario. -/
def c1FullState : List Booking :=
  [{ booking_id := 1, service_id := 7, room_type := some "Executive Room",
     start_date := 20250801, end_date := some 20250801, status := BookingStatus.pending },
   { booking_id := 2, service_id := 7, room_type := some "Executive Room",
     start_date := 20250801, end_date := some 20250801, status := BookingStatus.pending }]

/-- A third, fully valid Executive Room booking request for day 20250801. -/
def c1ThirdRequest : BookingRequest :=
  { ownerName := some "Juan Cruz", ownerEmail := some "juan@example.com",
    ownerPhone := some "09171234567", service_id := some 7, service_type := none,
    booking_date := some 20250801, end_date := some 20250801,
    pet_type := some "Dog", weight_category := some "Medium",
    room_type := some "Executive Room" }

/-! ## Claims -/

/-- C1.  The claim says a booking-creation request for a (date, service,
room) already at capacity is rejected with a capacity error and no row is
inserted.  The code has no capacity check anywhere on the POST /bookings
path: with the Executive Room (capacity 2) already holding two pending
bookings on 2025-08-01, the controller accepts a third request with HTTP
201, the table grows to three rows, and the availability engine then reports
three active bookings against a total of two. -/
theorem c1_createBooking_inserts_despite_full_capacity :
    (createBookingHttp servicesSeed c1FullState c1ThirdRequest).1 = 201 ∧
    ((createBookingHttp servicesSeed c1FullState c1ThirdRequest).2).length = 3 ∧
    countActiveOnDate (createBookingHttp servicesSeed c1FullState c1ThirdRequest).2
      20250801 7 = 3 ∧
    (getRoomAvailability c1FullState 20250801).overnight.executive.total = 2 ∧
    (getRoomAvailability c1FullState 20250801).overnight.executive.available = 0 := by
  decide

/-- C2 counterexample.  The claim says a booking with only a start_date (no
end_date) is counted on its start_date.  In the getRoomAvailability query the
condition end_date >= d is NULL for such a row, so the row is never selected:
a pending Executive booking starting on day 10 with no end_date yields an
active count of 0 on day 10, where the claim requires 1.  The count of the
flattened model (used with the same date) also contradicts the multi-night
half of the claim: a booking spanning days 10..12 is not counted on day 11
because that query compares start_date only. -/
theorem c2_counterexample :
    countActiveOnDate
      [{ booking_id := 1, service_id := 7, room_type := none, start_date := 10,
         end_date := none, status := BookingStatus.pending }] 10 7 = 0 ∧
    countBookingsByServiceAndRoom true servicesSeed
      [{ booking_id := 1, service_id := 7, room_type := some "Executive Room",
         start_date := 10, end_date := some 12, status := BookingStatus.pending }]
      11 "overnight" (some "Executive") = 0 := by
  decide

/-- C2 amended.  In the availability model (getRoomAvailability) a pending
booking with both dates is counted on d exactly when start_date <= d <=
end_date, and a booking without end_date is counted on no date at all; in
countBookingsByServiceAndRoom of the flattened booking model a booking is
counted exactly when d = start_date, regardless of end_date. -/
theorem c2_amended_interval_semantics :
    (∀ (id s e d : Nat),
      countActiveOnDate
        [{ booking_id := id, service_id := 7, room_type := none, start_date := s,
           end_date := some e, status := BookingStatus.pending }] d 7 =
        (if s ≤ d ∧ d ≤ e then 1 else 0)) ∧
    (∀ (id s d : Nat),
      countActiveOnDate
        [{ booking_id := id, service_id := 7, room_type := none, start_date := s,
           end_date := none, status := BookingStatus.pending }] d 7 = 0) ∧
    (∀ (id s e d : Nat),
      countBookingsByServiceAndRoom true servicesSeed
        [{ booking_id := id, service_id := 7, room_type := some "Executive Room",
           start_date := s, end_date := some e, status := BookingStatus.pending }]
        d "overnight" (some "Executive") =
        (if s = d then 1 else 0)) := by
  refine ⟨?_, ?_, ?_⟩
  · intro id s e d
    by_cases hs : s ≤ d <;> by_cases he : d ≤ e <;>
      simp [countActiveOnDate, bookingCountedOn, List.filter_singleton, hs, he]
  · intro id s d
    simp [countActiveOnDate, bookingCountedOn, List.filter_singleton]
  · intro id s e d
    by_cases hsd : s = d <;>
      simp [countBookingsByServiceAndRoom, serviceIdsFor, SERVICE_TYPE_MAP, lowerStr,
        jsTruthyStr, joinServiceType, servicesSeed, List.filter_singleton, hsd]

/-- C3 counterexample.  The claim says completing a booking clamps its
end_date to the current date.  The updateBookingStatus of the flattened
booking model runs UPDATE bookings SET status only: completing a
confirmed booking whose end_date is day 100 leaves end_date at day 100
whatever the current date is (the function does not even read a date), where
the claim requires end_date to become the current date (for any current date
before day 100, such as day 50). -/
theorem c3_counterexample :
    (updateBookingStatus
      [{ booking_id := 5, service_id := 7, room_type := none, start_date := 90,
         end_date := some 100, status := BookingStatus.confirmed }] 5 "completed").1.success
      = true ∧
    (updateBookingStatus
      [{ booking_id := 5, service_id := 7, room_type := none, start_date := 90,
         end_date := some 100, status := BookingStatus.confirmed }] 5 "completed").2 =
      [{ booking_id := 5, service_id := 7, room_type := none, start_date := 90,
         end_date := some 100, status := BookingStatus.completed }] := by
  decide

/-- C3 amended.  updateBookingStatus of the flattened booking model never
changes any end_date; the end_date clamp of the claim is implemented only in
the bookings-router PATCH /:id/status handler, whose completed branch sets
end_date = min(end_date, today) when end_date is present (and leaves a NULL
end_date NULL) while other bookings and other columns keep their dates. -/
theorem c3_amended_clamp_in_route :
    (∀ (bookings : List Booking) (id : Nat) (s : String),
      ((updateBookingStatus bookings id s).2).map Booking.end_date =
        bookings.map Booking.end_date) ∧
    (∀ (today bid sid sd e : Nat) (rt : Option String) (st : BookingStatus),
      routeUpdateBookingStatus today
        [{ booking_id := bid, service_id := sid, room_type := rt, start_date := sd,
           end_date := some e, status := st }] bid "completed" =
        (200,
          [{ booking_id := bid, service_id := sid, room_type := rt, start_date := sd,
             end_date := some (min e today), status := BookingStatus.completed }])) ∧
    (∀ (today bid sid sd : Nat) (rt : Option String) (st : BookingStatus),
      routeUpdateBookingStatus today
        [{ booking_id := bid, service_id := sid, room_type := rt, start_date := sd,
           end_date := none, status := st }] bid "completed" =
        (200,
          [{ booking_id := bid, service_id := sid, room_type := rt, start_date := sd,
             end_date := none, status := BookingStatus.completed }])) := by
  refine ⟨?_, ?_, ?_⟩
  · intro bookings id s
    unfold updateBookingStatus
    split
    · rfl
    · split
      · rfl
      · simp only [List.map_map]
        refine List.map_congr_left ?_
        intro b _
        simp only [Function.comp]
        split <;> rfl
  · intro today bid sid sd e rt st
    by_cases h : today < e
    · simp [routeUpdateBookingStatus, routeValidStatuses, clampCompleted,
        List.filter_singleton, h, Nat.min_eq_right (Nat.le_of_lt h)]
    · simp [routeUpdateBookingStatus, routeValidStatuses, clampCompleted,
        List.filter_singleton, h, Nat.min_eq_left (Nat.le_of_not_lt h)]
  · intro today bid sid sd rt st
    simp [routeUpdateBookingStatus, routeValidStatuses, clampCompleted,
      List.filter_singleton]

/-- C4.  checkServiceAvailability reports isBlocked = true exactly when some
calendar_availability row for the date has is_available = FALSE (every block
row of that table is wildcard-scoped, the table having no scope columns),
and a blocked date forces availableSlots = 0 and isAvailable = false no
matter how many bookings exist; with no such row isBlocked is false.  In the
legacy calculator a block row covering the date with per-field exact-or-all
scope match forces a result of 0 regardless of the bookings. -/
theorem c4_blocked_overrides_capacity :
    (∀ (bookings : List Booking) (cal : List CalendarRow) (d : Nat) (st : String)
        (rt : Option String),
      (checkServiceAvailability bookings cal d st rt).isBlocked = true ↔
        ∃ r ∈ cal, r.date = d ∧ r.is_available = false) ∧
    (∀ (bookings : List Booking) (cal : List CalendarRow) (d : Nat) (st : String)
        (rt : Option String),
      (∃ r ∈ cal, r.date = d ∧ r.is_available = false) →
        (checkServiceAvailability bookings cal d st rt).availableSlots = 0 ∧
        (checkServiceAvailability bookings cal d st rt).isAvailable = false) ∧
    (∀ (bookings : List Booking) (cal : List CalendarRow) (d : Nat) (st : String)
        (rt : Option String),
      (¬ ∃ r ∈ cal, r.date = d ∧ r.is_available = false) →
        (checkServiceAvailability bookings cal d st rt).isBlocked = false) ∧
    (∀ (lb : List LegacyBooking) (unav : List UnavailableDate) (d : Nat)
        (st rt : String),
      (∃ u ∈ unav, u.date = d ∧ (u.service_type = st ∨ u.service_type = "all") ∧
          (u.room_type = rt ∨ u.room_type = "all")) →
        calculateAvailableSlotsForDate lb unav d st rt = 0) := by
  have hany : ∀ (cal : List CalendarRow) (d : Nat),
      (cal.any fun r => r.date == d && !r.is_available) = true ↔
        ∃ r ∈ cal, r.date = d ∧ r.is_available = false := by
    intro cal d
    simp [List.any_eq_true, Bool.and_eq_true]
  refine ⟨?_, ?_, ?_, ?_⟩
  · intro bookings cal d st rt
    simp only [checkServiceAvailability]
    exact hany cal d
  · intro bookings cal d st rt h
    have hb : (cal.any fun r => r.date == d && !r.is_available) = true := (hany cal d).2 h
    constructor <;> simp [checkServiceAvailability, hb]
  · intro bookings cal d st rt h
    have hb : (cal.any fun r => r.date == d && !r.is_available) = false := by
      cases hba : cal.any fun r => r.date == d && !r.is_available
      · rfl
      · exact absurd ((hany cal d).1 hba) h
    simp [checkServiceAvailability, hb]
  · intro lb unav d st rt h
    have hb : unav.any (legacyBlockCovers d st rt) = true := by
      rcases h with ⟨u, hu, hd, hs, hr⟩
      refine List.any_eq_true.2 ⟨u, hu, ?_⟩
      simp [legacyBlockCovers, hd]
      constructor
      · rcases hs with hs | hs <;> simp [hs]
      · rcases hr with hr | hr <;> simp [hr]
    simp [calculateAvailableSlotsForDate, hb]

/-- C4 witness: a wildcard block row on day 5 forces zero daycare
availability and isBlocked, and a legacy all/all block on day 6 forces the
legacy calculator to 0 for overnight deluxe even with no bookings. -/
theorem c4_witness :
    (checkServiceAvailability [] [{ date := 5, is_available := false, reason := none }]
      5 "daycare" none).availableSlots = 0 ∧
    (checkServiceAvailability [] [{ date := 5, is_available := false, reason := none }]
      5 "daycare" none).isAvailable = false ∧
    (checkServiceAvailability [] [{ date := 5, is_available := false, reason := none }]
      5 "daycare" none).isBlocked = true ∧
    calculateAvailableSlotsForDate [] [{ date := 6, service_type := "all", room_type := "all" }]
      6 "overnight" "deluxe room" = 0 := by
  have h := c4_blocked_overrides_capacity
  have hex : ∃ r ∈ [({ date := 5, is_available := false, reason := none } : CalendarRow)],
      r.date = 5 ∧ r.is_available = false := by
    exact ⟨_, List.mem_singleton.2 rfl, rfl, rfl⟩
  refine ⟨(h.2.1 [] _ 5 "daycare" none hex).1, (h.2.1 [] _ 5 "daycare" none hex).2,
    (h.1 [] _ 5 "daycare" none).2 hex, h.2.2.2 [] _ 6 "overnight" "deluxe room" ?_⟩
  exact ⟨_, List.mem_singleton.2 rfl, rfl, Or.inr rfl, Or.inr rfl⟩

/-- C5 counterexample.  The claim says every availability result, including
each per-service entry of GET /availability, equals max(0, total - booked)
and is never negative.  The root route computes max_slots - booked with no
clamping: with the Executive Room service (max_slots 2) and three pending
bookings starting on the queried date, the route reports available_slots =
-1, a negative value different from max(0, 2 - 3) = 0. -/
theorem c5_counterexample :
    availabilityRootRoute
      [{ service_id := 7, service_name := "Executive Room",
         service_type := "overnight", max_slots := 2, allows_cat := none,
         cat_price_defined := false }]
      [{ booking_id := 1, service_id := 7, room_type := some "Executive Room",
         start_date := 20250801, end_date := some 20250801, status := BookingStatus.pending },
       { booking_id := 2, service_id := 7, room_type := some "Executive Room",
         start_date := 20250801, end_date := some 20250801, status := BookingStatus.pending },
       { booking_id := 3, service_id := 7, room_type := some "Executive Room",
         start_date := 20250801, end_date := some 20250801, status := BookingStatus.pending }]
      20250801 =
      [{ service_id := 7, service_name := "Executive Room", total_slots := 2,
         available_slots := -1 }] ∧
    ((-1 : Int) < 0) ∧ max 0 ((2 : Int) - 3) = 0 := by
  decide

/-- C5 amended.  The availability engine (getRoomAvailability, hence also
checkServiceAvailability) clamps: the available value of every bucket is
nonnegative, equals total - booked while booked is within capacity, and is 0
once booked exceeds capacity.  The GET /availability root route instead
reports max_slots - booked unclamped for every service row, so its value is
negative whenever booked exceeds max_slots. -/
theorem c5_amended_engine_clamps :
    (∀ (bookings : List Booking) (d : Nat),
      0 ≤ (getRoomAvailability bookings d).overnight.deluxe.available ∧
      0 ≤ (getRoomAvailability bookings d).overnight.premium.available ∧
      0 ≤ (getRoomAvailability bookings d).overnight.executive.available ∧
      0 ≤ (getRoomAvailability bookings d).daycare.available ∧
      0 ≤ (getRoomAvailability bookings d).grooming.basic.available ∧
      0 ≤ (getRoomAvailability bookings d).grooming.special.available ∧
      0 ≤ (getRoomAvailability bookings d).grooming.premium.available) ∧
    (∀ (bookings : List Booking) (d : Nat),
      countActiveOnDate bookings d 7 ≤ 2 →
        (getRoomAvailability bookings d).overnight.executive.available =
          2 - countActiveOnDate bookings d 7) ∧
    (∀ (bookings : List Booking) (d : Nat),
      2 < countActiveOnDate bookings d 7 →
        (getRoomAvailability bookings d).overnight.executive.available = 0) ∧
    (∀ (services : List Service) (bookings : List Booking) (d : Nat),
      (availabilityRootRoute services bookings d).map (fun a => a.available_slots) =
        services.map fun s => s.max_slots - countPendingConfirmedStart bookings d s.service_id) := by
  refine ⟨?_, ?_, ?_, ?_⟩
  · intro bookings d
    refine ⟨?_, ?_, ?_, ?_, ?_, ?_, ?_⟩ <;> exact le_max_left 0 _
  · intro bookings d h
    simp only [getRoomAvailability, mkSlot]
    omega
  · intro bookings d h
    simp only [getRoomAvailability, mkSlot]
    omega
  · intro services bookings d
    simp [availabilityRootRoute, List.map_map, Function.comp]

/-- C5 witness: at the full-capacity executive state the clamped engine value
is 2 - 2 = 0, and with one booking too many the engine still reports 0. -/
theorem c5_witness :
    (getRoomAvailability c1FullState 20250801).overnight.executive.available =
      2 - countActiveOnDate c1FullState 20250801 7 ∧
    (getRoomAvailability
      ({ booking_id := 3, service_id := 7, room_type := some "Executive Room",
         start_date := 20250801, end_date := some 20250801,
         status := BookingStatus.pending } :: c1FullState) 20250801).overnight.executive.available
      = 0 := by
  refine ⟨c5_amended_engine_clamps.2.1 c1FullState 20250801 (by decide),
    c5_amended_engine_clamps.2.2.1 _ 20250801 (by decide)⟩

/-- C6 counterexample.  The claim says completed, cancelled and no-show
bookings contribute zero to every availability computation.  The legacy
status filter of the legacy calculator excludes only cancelled and cancel: a completed
and a no-show daycare booking covering day 7 are both counted, so it reports
10 - 2 = 8 available slots where the claim requires 10. -/
theorem c6_counterexample :
    calculateAvailableSlotsForDate
      [{ start_date := 7, end_date := some 7, service_type := "daycare",
         room_type := "daycare", status := "completed" },
       { start_date := 7, end_date := some 7, service_type := "daycare",
         room_type := "daycare", status := "no-show" }]
      [] 7 "daycare" "daycare" = 8 := by
  decide

/-- C6 amended.  In the availability model, in the count of the flattened model
and in the GET /availability root-route count, a completed, cancelled or
no-show booking contributes zero (removing it from the table never changes
the count); in the legacy calculateAvailableSlotsForDate only cancelled and
cancel are excluded, and a completed booking covering the date is counted. -/
theorem c6_amended_status_filter :
    (∀ (bookings : List Booking) (b : Booking) (d sid : Nat),
      (b.status = BookingStatus.completed ∨ b.status = BookingStatus.cancelled ∨
          b.status = BookingStatus.noShow) →
        countActiveOnDate (b :: bookings) d sid = countActiveOnDate bookings d sid) ∧
    (∀ (bookings : List Booking) (b : Booking) (d sid : Nat),
      (b.status = BookingStatus.completed ∨ b.status = BookingStatus.cancelled ∨
          b.status = BookingStatus.noShow) →
        countPendingConfirmedStart (b :: bookings) d sid =
          countPendingConfirmedStart bookings d sid) ∧
    (∀ (dbOk : Bool) (services : List Service) (bookings : List Booking) (b : Booking)
        (d : Nat) (st : String) (rt : Option String),
      (b.status = BookingStatus.completed ∨ b.status = BookingStatus.cancelled ∨
          b.status = BookingStatus.noShow) →
        countBookingsByServiceAndRoom dbOk services (b :: bookings) d st rt =
          countBookingsByServiceAndRoom dbOk services bookings d st rt) ∧
    (∀ (s e d : Nat), s ≤ d → d ≤ e →
      calculateAvailableSlotsForDate
        [{ start_date := s, end_date := some e, service_type := "daycare",
           room_type := "daycare", status := "completed" }] [] d "daycare" "daycare" = 9) := by
  refine ⟨?_, ?_, ?_, ?_⟩
  · intro bookings b d sid hst
    have hs : statusNotDone b.status = false := by rcases hst with h | h | h <;> simp [h]
    simp [countActiveOnDate, bookingCountedOn, List.filter_cons, hs]
  · intro bookings b d sid hst
    have hs : statusPendingOrConfirmed b.status = false := by
      rcases hst with h | h | h <;> simp [h]
    simp [countPendingConfirmedStart, List.filter_cons, hs]
  · intro dbOk services bookings b d st rt hst
    have hs : statusNotDone b.status = false := by rcases hst with h | h | h <;> simp [h]
    simp [countBookingsByServiceAndRoom, List.filter_cons, hs]
  · intro s e d hs he
    simp [calculateAvailableSlotsForDate, legacyBlockCovers, List.filter_singleton, hs, he]

/-- C6 witness: concrete instances of each conjunct, including the legacy
calculator counting a completed booking that covers the query date. -/
theorem c6_witness :
    countActiveOnDate
      [{ booking_id := 9, service_id := 2, room_type := none, start_date := 3,
         end_date := some 9, status := BookingStatus.cancelled },
       { booking_id := 8, service_id := 2, room_type := none, start_date := 3,
         end_date := some 9, status := BookingStatus.pending }] 5 2 =
      countActiveOnDate
        [{ booking_id := 8, service_id := 2, room_type := none, start_date := 3,
           end_date := some 9, status := BookingStatus.pending }] 5 2 ∧
    calculateAvailableSlotsForDate
      [{ start_date := 3, end_date := some 9, service_type := "daycare",
         room_type := "daycare", status := "completed" }] [] 5 "daycare" "daycare" = 9 := by
  exact ⟨c6_amended_status_filter.1 _ _ 5 2 (Or.inr (Or.inl rfl)),
    c6_amended_status_filter.2.2.2 3 9 5 (by decide) (by decide)⟩

/-- C7.  normalizeRoomType maps the mixed-case, underscored, padded and
keyword variants of each canonical room name to that canonical tag: the
exact variants are computed, and any string whose canonical form (trimmed,
lowercased, underscores to spaces) contains the keyword of the room and not
a keyword of an earlier room in the deluxe-premium-executive match order is
mapped to the tag of that room (the distinguishing keyword decides the result). -/
theorem c7_normalizeRoomType_variants :
    (normalizeRoomType "Deluxe Room" = some "Deluxe Room" ∧
     normalizeRoomType "deluxe_room" = some "Deluxe Room" ∧
     normalizeRoomType "DELUXE" = some "Deluxe Room" ∧
     normalizeRoomType "  deluxe room  " = some "Deluxe Room") ∧
    (normalizeRoomType "Premium Room" = some "Premium Room" ∧
     normalizeRoomType "premium_room" = some "Premium Room" ∧
     normalizeRoomType "PREMIUM" = some "Premium Room") ∧
    (normalizeRoomType "Executive Room" = some "Executive Room" ∧
     normalizeRoomType "executive_room" = some "Executive Room" ∧
     normalizeRoomType "EXECUTIVE" = some "Executive Room") ∧
    (∀ s : String, strContains (String.mk (canonRoomChars s)) "deluxe" = true →
      normalizeRoomType s = some "Deluxe Room") ∧
    (∀ s : String, strContains (String.mk (canonRoomChars s)) "premium" = true →
      strContains (String.mk (canonRoomChars s)) "deluxe" = false →
      normalizeRoomType s = some "Premium Room") ∧
    (∀ s : String, strContains (String.mk (canonRoomChars s)) "executive" = true →
      strContains (String.mk (canonRoomChars s)) "deluxe" = false →
      strContains (String.mk (canonRoomChars s)) "premium" = false →
      normalizeRoomType s = some "Executive Room") := by
  refine ⟨by decide, by decide, by decide, ?_, ?_, ?_⟩
  · intro s h
    by_cases h0 : s = ""
    · rw [h0] at h; exact absurd h (by decide)
    · unfold normalizeRoomType
      simp only [beq_iff_eq, h0, if_false, ite_false]
      set v := String.mk (canonRoomChars s) with hv
      by_cases h1 : v = "deluxe"
      · simp [h1]
      by_cases h2 : v = "deluxe room"
      · simp [h1, h2]
      by_cases h3 : v = "premium"
      · rw [h3] at h; exact absurd h (by decide)
      by_cases h4 : v = "premium room"
      · rw [h4] at h; exact absurd h (by decide)
      by_cases h5 : v = "executive"
      · rw [h5] at h; exact absurd h (by decide)
      by_cases h6 : v = "executive room"
      · rw [h6] at h; exact absurd h (by decide)
      simp [h1, h2, h3, h4, h5, h6, h]
  · intro s h hd
    by_cases h0 : s = ""
    · rw [h0] at h; exact absurd h (by decide)
    · unfold normalizeRoomType
      simp only [beq_iff_eq, h0, if_false, ite_false]
      set v := String.mk (canonRoomChars s) with hv
      by_cases h1 : v = "deluxe"
      · rw [h1] at hd; exact absurd hd (by decide)
      by_cases h2 : v = "deluxe room"
      · rw [h2] at hd; exact absurd hd (by decide)
      by_cases h3 : v = "premium"
      · simp [h1, h2, h3]
      by_cases h4 : v = "premium room"
      · simp [h1, h2, h3, h4]
      by_cases h5 : v = "executive"
      · rw [h5] at h; exact absurd h (by decide)
      by_cases h6 : v = "executive room"
      · rw [h6] at h; exact absurd h (by decide)
      simp [h1, h2, h3, h4, h5, h6, h, hd]
  · intro s h hd hp
    by_cases h0 : s = ""
    · rw [h0] at h; exact absurd h (by decide)
    · unfold normalizeRoomType
      simp only [beq_iff_eq, h0, if_false, ite_false]
      set v := String.mk (canonRoomChars s) with hv
      by_cases h1 : v = "deluxe"
      · rw [h1] at hd; exact absurd hd (by decide)
      by_cases h2 : v = "deluxe room"
      · rw [h2] at hd; exact absurd hd (by decide)
      by_cases h3 : v = "premium"
      · rw [h3] at hp; exact absurd hp (by decide)
      by_cases h4 : v = "premium room"
      · rw [h4] at hp; exact absurd hp (by decide)
      by_cases h5 : v = "executive"
      · simp [h1, h2, h3, h4, h5]
      by_cases h6 : v = "executive room"
      · simp [h1, h2, h3, h4, h5, h6]
      simp [h1, h2, h3, h4, h5, h6, h, hd, hp]

/-- C7 witness: the keyword-containment conjuncts applied at concrete
strings whose canonical forms contain exactly one keyword. -/
theorem c7_witness :
    normalizeRoomType "super DELUXE suite" = some "Deluxe Room" ∧
    normalizeRoomType "the_premium_suite" = some "Premium Room" ∧
    normalizeRoomType " grand executive suite " = some "Executive Room" := by
  refine ⟨c7_normalizeRoomType_variants.2.2.2.1 "super DELUXE suite" (by decide),
    c7_normalizeRoomType_variants.2.2.2.2.1 "the_premium_suite" (by decide) (by decide),
    c7_normalizeRoomType_variants.2.2.2.2.2 " grand executive suite " (by decide) (by decide)
      (by decide)⟩

/-- C8.  On the controller plus flattened-model path, a status string
outside the five allowed values yields HTTP 400 with the table unchanged, a
valid status with an unknown booking id yields HTTP 404 with the table
unchanged, and a valid status with an existing id yields HTTP 200 with the
new status reported back. -/
theorem c8_updateBookingStatus_http :
    (∀ (bookings : List Booking) (id : Nat) (s : String), s ∉ validStatuses →
      updateBookingStatusHttp bookings (some id) (some s) =
        (400, { success := false, message := "Invalid status value", statusOut := none },
          bookings)) ∧
    (∀ (bookings : List Booking) (id : Nat) (s : String), s ∈ validStatuses →
      (∀ b ∈ bookings, b.booking_id ≠ id) →
      updateBookingStatusHttp bookings (some id) (some s) =
        (404, { success := false, message := "Booking not found", statusOut := none },
          bookings)) ∧
    (∀ (bookings : List Booking) (id : Nat) (s : String), s ∈ validStatuses →
      (∃ b ∈ bookings, b.booking_id = id) →
      (updateBookingStatusHttp bookings (some id) (some s)).1 = 200 ∧
      (updateBookingStatusHttp bookings (some id) (some s)).2.1.statusOut = some s) := by
  have hm : ((("Invalid status value" : String) == "Booking not found") = false) := by decide
  refine ⟨?_, ?_, ?_⟩
  · intro bookings id s h
    have hc : validStatuses.contains s = false := by simpa using h
    simp only [updateBookingStatusHttp, updateBookingStatus, hc, Bool.not_false, if_true,
      ite_true, ite_false, hm, Bool.false_eq_true, if_false]
  · intro bookings id s h h2
    have hc : validStatuses.contains s = true := by simpa using h
    have hempty : (bookings.filter fun b => b.booking_id == id).isEmpty = true := by
      simp [List.isEmpty_iff, List.filter_eq_nil_iff]
      exact h2
    simp only [updateBookingStatusHttp, updateBookingStatus, hc, Bool.not_true, hempty,
      ite_true, ite_false, Bool.false_eq_true, if_false, if_true, beq_self_eq_true]
  · intro bookings id s h h2
    have hc : validStatuses.contains s = true := by simpa using h
    rcases h2 with ⟨b, hb, hbid⟩
    have hempty : (bookings.filter fun b => b.booking_id == id).isEmpty = false := by
      simp [List.isEmpty_iff, List.filter_eq_nil_iff]
      exact ⟨b, hb, hbid⟩
    constructor <;>
      simp only [updateBookingStatusHttp, updateBookingStatus, hc, Bool.not_true, hempty,
        ite_true, ite_false, Bool.false_eq_true, if_false, if_true]

/-- C8 witness: the three cases at a one-row table with booking id 5. -/
theorem c8_witness :
    updateBookingStatusHttp
      [{ booking_id := 5, service_id := 7, room_type := none, start_date := 90,
         end_date := some 100, status := BookingStatus.pending }] (some 5) (some "paused") =
      (400, { success := false, message := "Invalid status value", statusOut := none },
        [{ booking_id := 5, service_id := 7, room_type := none, start_date := 90,
           end_date := some 100, status := BookingStatus.pending }]) ∧
    updateBookingStatusHttp
      [{ booking_id := 5, service_id := 7, room_type := none, start_date := 90,
         end_date := some 100, status := BookingStatus.pending }] (some 6) (some "confirmed") =
      (404, { success := false, message := "Booking not found", statusOut := none },
        [{ booking_id := 5, service_id := 7, room_type := none, start_date := 90,
           end_date := some 100, status := BookingStatus.pending }]) ∧
    (updateBookingStatusHttp
      [{ booking_id := 5, service_id := 7, room_type := none, start_date := 90,
         end_date := some 100, status := BookingStatus.pending }] (some 5)
      (some "confirmed")).1 = 200 ∧
    (updateBookingStatusHttp
      [{ booking_id := 5, service_id := 7, room_type := none, start_date := 90,
         end_date := some 100, status := BookingStatus.pending }] (some 5)
      (some "confirmed")).2.1.statusOut = some "confirmed" := by
  refine ⟨c8_updateBookingStatus_http.1 _ 5 "paused" (by decide),
    c8_updateBookingStatus_http.2.1 _ 6 "confirmed" (by decide) ?_,
    (c8_updateBookingStatus_http.2.2 _ 5 "confirmed" (by decide) ?_).1,
    (c8_updateBookingStatus_http.2.2 _ 5 "confirmed" (by decide) ?_).2⟩
  · intro b hb
    simp only [List.mem_singleton] at hb
    rw [hb]
    decide
  · exact ⟨_, List.mem_singleton.2 rfl, rfl⟩
  · exact ⟨_, List.mem_singleton.2 rfl, rfl⟩

/-- Helper: the availability.overnight[roomType] lookup misses for every
room string other than the three known keys. -/
theorem overnightSlotFor_unknown (a : OvernightAvail) (r : String)
    (h1 : r ≠ "deluxe") (h2 : r ≠ "premium") (h3 : r ≠ "executive") :
    overnightSlotFor a r = none := by
  unfold overnightSlotFor
  split <;> simp_all

/-- Helper: the availability.grooming[roomType] lookup misses for every room
string other than the three known keys. -/
theorem groomingSlotFor_unknown (a : GroomingAvail) (r : String)
    (h1 : r ≠ "basic") (h2 : r ≠ "special") (h3 : r ≠ "premium") :
    groomingSlotFor a r = none := by
  unfold groomingSlotFor
  split <;> simp_all

/-- C9.  countBookingsByServiceAndRoom never propagates an error: an
overnight or grooming room type that maps to no SERVICE_TYPE_MAP entry
returns 0 before any query, and when the database query itself fails
(dbOk = false) the catch handler returns 0, for every service type and room,
so callers observe zero active bookings in all these cases. -/
theorem c9_countBookings_soft_failure :
    (∀ (dbOk : Bool) (services : List Service) (bookings : List Booking) (d : Nat)
        (r : String), r ≠ "" → serviceIdsFor "overnight" (lowerStr r) = [] →
      countBookingsByServiceAndRoom dbOk services bookings d "overnight" (some r) = 0) ∧
    (∀ (dbOk : Bool) (services : List Service) (bookings : List Booking) (d : Nat)
        (r : String), r ≠ "" → serviceIdsFor "grooming" (lowerStr r) = [] →
      countBookingsByServiceAndRoom dbOk services bookings d "grooming" (some r) = 0) ∧
    (∀ (services : List Service) (bookings : List Booking) (d : Nat) (st : String)
        (rt : Option String),
      countBookingsByServiceAndRoom false services bookings d st rt = 0) := by
  refine ⟨?_, ?_, ?_⟩
  · intro dbOk services bookings d r hr hids
    simp [countBookingsByServiceAndRoom, jsTruthyStr, hr, hids]
  · intro dbOk services bookings d r hr hids
    simp [countBookingsByServiceAndRoom, jsTruthyStr, hr, hids]
  · intro services bookings d st rt
    simp only [countBookingsByServiceAndRoom, Bool.not_false, ite_true, if_true]
    split_ifs <;> rfl

/-- C9 witness: an unknown overnight room and a failing query both yield 0
even with a matching active booking in the table. -/
theorem c9_witness :
    countBookingsByServiceAndRoom true servicesSeed
      [{ booking_id := 1, service_id := 7, room_type := some "Executive Room",
         start_date := 4, end_date := some 4, status := BookingStatus.pending }]
      4 "overnight" (some "penthouse") = 0 ∧
    countBookingsByServiceAndRoom false servicesSeed
      [{ booking_id := 1, service_id := 7, room_type := some "Executive Room",
         start_date := 4, end_date := some 4, status := BookingStatus.pending }]
      4 "overnight" (some "Executive") = 0 := by
  exact ⟨c9_countBookings_soft_failure.1 true servicesSeed _ 4 "penthouse" (by decide)
      (by decide),
    c9_countBookings_soft_failure.2.2 servicesSeed _ 4 "overnight" (some "Executive")⟩

/-- C10.  checkServiceAvailability degrades softly instead of failing: for a
service type other than overnight, daycare or grooming, and for overnight or
grooming queries whose room type is missing, empty or not a known key, the
returned record has totalSlots = 0, availableSlots = 0 and isAvailable =
false. -/
theorem c10_unknown_service_soft_zero :
    (∀ (bookings : List Booking) (cal : List CalendarRow) (d : Nat) (st : String)
        (rt : Option String), st ≠ "overnight" → st ≠ "daycare" → st ≠ "grooming" →
      (checkServiceAvailability bookings cal d st rt).totalSlots = 0 ∧
      (checkServiceAvailability bookings cal d st rt).availableSlots = 0 ∧
      (checkServiceAvailability bookings cal d st rt).isAvailable = false) ∧
    (∀ (bookings : List Booking) (cal : List CalendarRow) (d : Nat) (rt : Option String),
      (∀ r, rt = some r → r ≠ "deluxe" ∧ r ≠ "premium" ∧ r ≠ "executive") →
      (checkServiceAvailability bookings cal d "overnight" rt).totalSlots = 0 ∧
      (checkServiceAvailability bookings cal d "overnight" rt).availableSlots = 0 ∧
      (checkServiceAvailability bookings cal d "overnight" rt).isAvailable = false) ∧
    (∀ (bookings : List Booking) (cal : List CalendarRow) (d : Nat) (rt : Option String),
      (∀ r, rt = some r → r ≠ "basic" ∧ r ≠ "special" ∧ r ≠ "premium") →
      (checkServiceAvailability bookings cal d "grooming" rt).totalSlots = 0 ∧
      (checkServiceAvailability bookings cal d "grooming" rt).availableSlots = 0 ∧
      (checkServiceAvailability bookings cal d "grooming" rt).isAvailable = false) := by
  refine ⟨?_, ?_, ?_⟩
  · intro bookings cal d st rt h1 h2 h3
    refine ⟨?_, ?_, ?_⟩ <;> simp [checkServiceAvailability, h1, h2, h3]
  · intro bookings cal d rt h
    match hrt : rt with
    | none =>
      refine ⟨?_, ?_, ?_⟩ <;> simp [checkServiceAvailability, jsTruthyStr]
    | some r =>
      by_cases hre : r = ""
      · refine ⟨?_, ?_, ?_⟩ <;> simp [checkServiceAvailability, jsTruthyStr, hre]
      · rcases h r rfl with ⟨hr1, hr2, hr3⟩
        have hnone : ∀ a, overnightSlotFor a r = none := fun a =>
          overnightSlotFor_unknown a r hr1 hr2 hr3
        refine ⟨?_, ?_, ?_⟩ <;>
          simp [checkServiceAvailability, jsTruthyStr, hre, hnone]
  · intro bookings cal d rt h
    match hrt : rt with
    | none =>
      refine ⟨?_, ?_, ?_⟩ <;> simp [checkServiceAvailability, jsTruthyStr]
    | some r =>
      by_cases hre : r = ""
      · refine ⟨?_, ?_, ?_⟩ <;> simp [checkServiceAvailability, jsTruthyStr, hre]
      · rcases h r rfl with ⟨hr1, hr2, hr3⟩
        have hnone : ∀ a, groomingSlotFor a r = none := fun a =>
          groomingSlotFor_unknown a r hr1 hr2 hr3
        refine ⟨?_, ?_, ?_⟩ <;>
          simp [checkServiceAvailability, jsTruthyStr, hre, hnone]

/-- C10 witness: an unknown service type and an unknown overnight room both
produce the zeroed success record, on a table that has an active booking. -/
theorem c10_witness :
    (checkServiceAvailability c1FullState [] 20250801 "boarding" none).totalSlots = 0 ∧
    (checkServiceAvailability c1FullState [] 20250801 "boarding" none).isAvailable = false ∧
    (checkServiceAvailability c1FullState [] 20250801 "overnight"
      (some "penthouse")).availableSlots = 0 := by
  exact ⟨(c10_unknown_service_soft_zero.1 c1FullState [] 20250801 "boarding" none
      (by decide) (by decide) (by decide)).1,
    (c10_unknown_service_soft_zero.1 c1FullState [] 20250801 "boarding" none
      (by decide) (by decide) (by decide)).2.2,
    (c10_unknown_service_soft_zero.2.1 c1FullState [] 20250801 (some "penthouse")
      (by intro r hr; cases hr; exact ⟨by decide, by decide, by decide⟩)).2.1⟩

end BaguioPetBoarding
